import Mathlib

/-!
Verification of the ng engagement-tracking pipeline (src/app.py, src/utils.py,
src/config.py) against its natural-language specification.

Shallow-embedding conventions used throughout this file:
* Timestamps and dates are modelled at day granularity as integers (`Day`).
  The pipeline only ever compares timestamps and takes whole-day differences
  (`.dt.days`), so sub-day precision is irrelevant to every property treated here.
* A pandas cell that may be NaN/NaT is modelled as an `Option`; a missing
  DataFrame column is modelled by an explicit presence flag where the code's
  behaviour depends on it (`RawDF`).
* Pandas semantics used (and noted at each use site):
  comparisons with NaN/NaT yield `false`; `Series.isin` is `false` on NaN;
  `DataFrame.get(col, default)` yields the scalar default when the column is
  missing; `(scalar NaT).dt` raises `AttributeError`; `NaT.strftime` raises
  `ValueError`; Python `round` is round-half-to-even on the exact value.
* Fallible code (code paths that raise) returns `Except PdError`.
-/

namespace NG

/-- Timestamps at day granularity (see file header). -/
abbrev Day := Int

/-- Config.URGENT_DAYS (src/config.py line 25). -/
def URGENT_DAYS : Int := 3

/-! ## Derivation Stage (src/utils.py, load_db lines 77-86) -/

/-- One raw persisted row, restricted to the columns the derivation block reads.
`none` models a NaN/NaT cell. -/
structure RawRow where
  next_action_date : Option Day
  outcome : Option String
  target_date : Option Day
deriving DecidableEq, Repr

/-- A raw record set together with column-presence flags for the three optional
derivation-input columns (pandas DataFrames can lack whole columns; the code
branches on that via `df.get(col, default)`). -/
structure RawDF where
  hasNextActionDate : Bool
  hasOutcome : Bool
  hasTargetDate : Bool
  rows : List RawRow
deriving DecidableEq, Repr

/-- Exceptions the embedded code paths can raise. -/
inductive PdError where
  /-- AttributeError: `df.get("next_action_date", pd.NaT)` is the scalar `NaT`
  when the column is missing, `NaT - now` is `NaT`, and scalar `NaT` has no
  `.dt` accessor (src/utils.py line 79). -/
  | natHasNoDtAttr
  /-- TypeError: with the `outcome` column missing, line 80 assigns an empty
  Series, which aligns to an all-NaN object column `is_complete`; applying a
  boolean operator chain to it (`~` on line 83) raises (src/utils.py lines 80-83). -/
  | nanBoolColumnOp
  /-- ValueError: `pd.to_datetime(None)` is `NaT` and `NaT.strftime` raises
  (src/utils.py line 236). -/
  | natStrftime
deriving DecidableEq, Repr

/-- Derived fields appended by load_db lines 79-84. -/
structure DerivedRow where
  days_to_next_action : Option Int
  is_complete : Bool
  on_time : Bool
  late : Bool
  overdue : Bool
  urgent : Bool
deriving DecidableEq, Repr

/-- Vocabulary tested on line 80 of src/utils.py. -/
def COMPLETE_OUTCOMES : List String := ["engagement complete", "response received"]

/-- Per-row derivation, lines 79-84 of src/utils.py, for the case where the
`next_action_date` and `outcome` columns are present (otherwise the block
raises, see `deriveFields`).  `hasTarget` records whether the `target_date`
column exists: when it does not, `df.get("target_date", pd.NaT) >= now` is a
scalar NaT comparison, which is `false`.  Elementwise NaT comparisons and
`NaN <= 3` are also `false` in pandas, and `.str.lower().isin(...)` maps a NaN
outcome cell to `false`. -/
def deriveRow (hasTarget : Bool) (r : RawRow) (now : Day) : DerivedRow :=
  let days : Option Int := r.next_action_date.map (fun d => d - now)
  let isC : Bool :=
    match r.outcome with
    | some s => COMPLETE_OUTCOMES.contains s.toLower
    | none => false
  let tgt : Option Day := if hasTarget then r.target_date else none
  { days_to_next_action := days
    is_complete := isC
    on_time := isC && (match tgt with | some t => decide (now ≤ t) | none => false)
    late := isC && (match tgt with | some t => decide (t < now) | none => false)
    overdue := (match r.next_action_date with | some d => decide (d < now) | none => false) && !isC
    urgent := match days with | some d => decide (d ≤ URGENT_DAYS) | none => false }

/-- Derivation block of load_db (src/utils.py lines 77-86).  The block is
guarded by `if not df.empty`.  With the `next_action_date` column missing,
line 79 evaluates `(pd.NaT - now).dt` and raises AttributeError.  With the
`outcome` column missing, line 80 creates an all-NaN `is_complete` column and
the boolean-operator chain on lines 81-83 raises TypeError (`~` of a NaN
object column).  A missing `target_date` column only yields scalar-False
comparisons and does not raise. -/
def deriveFields (df : RawDF) (now : Day) : Except PdError (List DerivedRow) :=
  if df.rows = [] then .ok []
  else if !df.hasNextActionDate then .error .natHasNoDtAttr
  else if !df.hasOutcome then .error .nanBoolColumnOp
  else .ok (df.rows.map (fun r => deriveRow df.hasTargetDate r now))

/-! ## Filter Stage: record rows as seen by the filter/analytics code.

A `Row` is one row of the derived view.  Optional string columns model NaN
cells; the `theme` column produced by load_db line 71 is a plain string; the
four theme flag columns hold the sentinel "Y"/"N" strings; `e`, `s`, `g`,
`repeat` are booleans after load_db line 58.  The Python column name `repeat`
is a Lean keyword, hence the field name `repeat_flag`. -/
structure Row where
  company_name : String
  program : Option String
  gics_sector : Option String
  region : Option String
  country : Option String
  outcome : Option String
  sentiment : Option String
  initial_status : Option String
  objective : Option String
  milestone : Option String
  milestone_status : Option String
  theme : String
  climate_change : String
  water : String
  forests : String
  other : String
  e : Bool
  s : Bool
  g : Bool
  repeat_flag : Bool
  urgent : Bool
  next_action_date : Option Day
  days_to_next_action : Option Int
deriving DecidableEq, Repr

/-- Membership test `df[col].isin(vals)` on a possibly-NaN string cell:
NaN is never a member. -/
def optIsin (v : Option String) (vals : List String) : Bool :=
  match v with
  | some x => vals.contains x
  | none => false

/-- The 13-component filter tuple taken by apply_filters (src/utils.py line 648).
Empty list, `false`, and `""` are the falsy "unset" values. -/
structure Filters where
  progs : List String
  sector : List String
  region : List String
  country : List String
  outcome : List String
  sentiment : List String
  status : List String
  esg : List String
  urgent : Bool
  upcoming : Bool
  theme : String
  objectives : List String
  repeat_values : List Bool
deriving DecidableEq, Repr

/-- Theme-name normalisation (src/utils.py lines 659-660): the fixed mapping,
falling back to lowercase with spaces replaced by underscores. -/
def normalizeTheme (t : String) : String :=
  if t = "Climate" then "climate_change"
  else if t = "Water" then "water"
  else if t = "Forests" then "forests"
  else if t = "Other" then "other"
  else (t.toLower.replace " " "_")

/-- Dynamic column access for the four theme flag columns; `none` models
"not a column of the record set" (src/utils.py line 661). -/
def themeColVal (r : Row) : String → Option String
  | "climate_change" => some r.climate_change
  | "water" => some r.water
  | "forests" => some r.forests
  | "other" => some r.other
  | _ => none

/-- Dynamic column access for the three ESG flag columns; `none` models
"not a column of the record set" (src/utils.py line 665). -/
def esgFlag (r : Row) : String → Option Bool
  | "e" => some r.e
  | "s" => some r.s
  | "g" => some r.g
  | _ => none

/-- Theme branch of apply_filters (src/utils.py lines 658-662): a condition is
added only when the normalised name is one of the theme columns. -/
def themeCondition (t : String) : List (Row → Bool) :=
  let n := normalizeTheme t
  if n = "climate_change" || n = "water" || n = "forests" || n = "other" then
    [fun r => (themeColVal r n) == some "Y"]
  else []

/-- ESG branch of apply_filters (src/utils.py lines 664-667): keep the selected
flags that are columns, and require ANY of them to hold (row-wise OR). -/
def esgCondition (esg : List String) : List (Row → Bool) :=
  if esg.isEmpty then []
  else
    let flags := esg.filter (fun fl => fl == "e" || fl == "s" || fl == "g")
    if flags.isEmpty then []
    else [fun r => flags.any (fun fl => (esgFlag r fl).getD false)]

/-- Upcoming-window condition (src/utils.py lines 672-674): days from today to
the next action date must lie in [0, 30]; a NaT date yields NaN days, and
`Series.between` is `false` on NaN. -/
def upcomingCond (now : Day) (r : Row) : Bool :=
  match r.next_action_date with
  | some d => decide (0 ≤ d - now ∧ d - now ≤ 30)
  | none => false

/-- The list of filter conditions built by apply_filters (src/utils.py
lines 650-677), in source order.  All categorical columns exist on `Row`, so
the `col in df.columns` guard of line 655 is always satisfied here. -/
def filterConditions (f : Filters) (now : Day) : List (Row → Bool) :=
  (if f.progs.isEmpty then [] else [fun r => optIsin r.program f.progs]) ++
  (if f.sector.isEmpty then [] else [fun r => optIsin r.gics_sector f.sector]) ++
  (if f.region.isEmpty then [] else [fun r => optIsin r.region f.region]) ++
  (if f.country.isEmpty then [] else [fun r => optIsin r.country f.country]) ++
  (if f.outcome.isEmpty then [] else [fun r => optIsin r.outcome f.outcome]) ++
  (if f.sentiment.isEmpty then [] else [fun r => optIsin r.sentiment f.sentiment]) ++
  (if f.status.isEmpty then [] else [fun r => optIsin r.initial_status f.status]) ++
  (if f.objectives.isEmpty then [] else [fun r => optIsin r.objective f.objectives]) ++
  (if f.theme = "" then [] else themeCondition f.theme) ++
  esgCondition f.esg ++
  (if f.urgent then [fun (r : Row) => r.urgent] else []) ++
  (if f.upcoming then [upcomingCond now] else []) ++
  (if f.repeat_values.isEmpty then [] else [fun r => f.repeat_values.contains r.repeat_flag])

/-- apply_filters (src/utils.py lines 644-687): empty input passes through; no
conditions means the record set is returned unchanged; otherwise the conjunction
of all conditions is applied row-wise ("upcoming" uses the normalised current
day, which coincides with `now` at day granularity). -/
def apply_filters (df : List Row) (f : Filters) (now : Day) : List Row :=
  if df.isEmpty then df
  else
    let conditions := filterConditions f now
    if conditions.isEmpty then df
    else df.filter (fun r => conditions.all (fun c => c r))

/-- The 12-component filter tuple taken by the app-level apply_filters
(src/app.py line 105). -/
structure AppFilters where
  progs : List String
  sector : List String
  region : List String
  country : List String
  mile : List String
  status : List String
  esg : List String
  show_urgent : Bool
  show_upcoming : Bool
  companies : List String
  themes : List String
  objectives : List String
deriving DecidableEq, Repr

/-- Guard of src/app.py line 118: all selected ESG names must be columns. -/
def appEsgAllCols (esg : List String) : Bool :=
  esg.all (fun fl => fl == "e" || fl == "s" || fl == "g")

/-- App-level apply_filters (src/app.py lines 101-130): sequential narrowing,
one dimension at a time, in source order. -/
def app_apply_filters (df : List Row) (f : AppFilters) (today : Day) : List Row :=
  if df.isEmpty then df
  else
    let d0 := df
    let d1 := if f.progs.isEmpty then d0 else d0.filter (fun r => optIsin r.program f.progs)
    let d2 := if f.sector.isEmpty then d1 else d1.filter (fun r => optIsin r.gics_sector f.sector)
    let d3 := if f.region.isEmpty then d2 else d2.filter (fun r => optIsin r.region f.region)
    let d4 := if f.country.isEmpty then d3 else d3.filter (fun r => optIsin r.country f.country)
    let d5 := if f.mile.isEmpty then d4 else d4.filter (fun r => optIsin r.milestone f.mile)
    let d6 := if f.status.isEmpty then d5 else d5.filter (fun r => optIsin r.milestone_status f.status)
    let d7 := if f.companies.isEmpty then d6 else d6.filter (fun r => f.companies.contains r.company_name)
    let d8 := if f.themes.isEmpty then d7 else d7.filter (fun r => f.themes.contains r.theme)
    let d9 := if f.esg.isEmpty || !appEsgAllCols f.esg then d8
              else d8.filter (fun r => f.esg.any (fun fl => (esgFlag r fl).getD false))
    let d10 := if f.show_urgent then d9.filter (fun r => r.urgent) else d9
    let d11 := if f.show_upcoming then d10.filter (upcomingCond today) else d10
    let d12 := if f.objectives.isEmpty then d11 else d11.filter (fun r => optIsin r.objective f.objectives)
    d12

/-- The all-unset filter tuple. -/
def emptyFilters : Filters :=
  { progs := [], sector := [], region := [], country := [], outcome := []
    sentiment := [], status := [], esg := [], urgent := false, upcoming := false
    theme := "", objectives := [], repeat_values := [] }

/-- The all-unset app-level filter tuple. -/
def emptyAppFilters : AppFilters :=
  { progs := [], sector := [], region := [], country := [], mile := [], status := []
    esg := [], show_urgent := false, show_upcoming := false, companies := []
    themes := [], objectives := [] }

/-- A filter tuple whose only set dimension is the ESG selection. -/
def esgOnly (sel : List String) : Filters := { emptyFilters with esg := sel }

/-- An app-level filter tuple whose only set dimension is the ESG selection. -/
def appEsgOnly (sel : List String) : AppFilters := { emptyAppFilters with esg := sel }

/-! ## Analytics Stage (src/app.py, dashboard lines 146-167 and 227-248;
src/utils.py render_gauges lines 616-642) -/

/-- Python `round` on the exact value of the rounded expression:
round-half-to-even (banker's rounding). -/
def pyRound (q : ℚ) : ℤ :=
  if q - ⌊q⌋ < 1/2 then ⌊q⌋
  else if (1 : ℚ)/2 < q - ⌊q⌋ then ⌊q⌋ + 1
  else if ⌊q⌋ % 2 = 0 then ⌊q⌋ else ⌊q⌋ + 1

/-- Success vocabulary (src/app.py line 156). -/
def success_milestones : List String :=
  ["Success", "Full Disclosure", "Partial Disclosure", "Verified"]

/-- Count of line 157, `data["milestone"].isin(success_milestones).sum()`: the
boolean column is materialised and its `true` entries summed; `isin` is
case-sensitive and `false` on NaN. -/
def success_count (data : List Row) : Nat :=
  (data.map (fun r => optIsin r.milestone success_milestones)).count true

/-- Success rate (src/app.py line 158). -/
def success_rate (data : List Row) : ℤ :=
  if 0 < data.length then pyRound ((success_count data : ℚ) / (data.length : ℚ) * 100) else 0

/-- Count of line 164, `data["milestone"].str.lower().eq("cancelled").sum()`:
lowercasing maps NaN to NaN and `eq` is `false` on NaN. -/
def failed_count (data : List Row) : Nat :=
  (data.map (fun r => (r.milestone.map String.toLower) == some "cancelled")).count true

/-- Fail rate (src/app.py line 167). -/
def fail_rate (data : List Row) : ℤ :=
  if 0 < data.length then pyRound ((failed_count data : ℚ) / (data.length : ℚ) * 100) else 0

/-- Success rate written exactly as claim C8 words it: the rounded percentage
of records whose milestone lies in the success vocabulary, and 0 (not an
error) on the empty record set.  This definition follows the claim text, to be
compared with `success_rate`, which follows the source. -/
def claimSuccessRate (data : List Row) : ℤ :=
  if data = [] then 0
  else pyRound (((data.filter (fun r => optIsin r.milestone success_milestones)).length : ℚ)
                  / (data.length : ℚ) * 100)

/-- Fail rate written exactly as claim C8 words it: the analogous ratio for
milestone = "cancelled" compared case-insensitively, and 0 on the empty set.
Follows the claim text, to be compared with `fail_rate`. -/
def claimFailRate (data : List Row) : ℤ :=
  if data = [] then 0
  else pyRound (((data.filter (fun r => (r.milestone.map String.toLower) == some "cancelled")).length : ℚ)
                  / (data.length : ℚ) * 100)

/-- The four theme categories of the thematic distribution. -/
inductive ThemeCat where
  | climate
  | water
  | forests
  | other
deriving DecidableEq, Repr

/-- The theme flag column of one category on a row. -/
def themeFlagVal (r : Row) : ThemeCat → String
  | .climate => r.climate_change
  | .water => r.water
  | .forests => r.forests
  | .other => r.other

/-- Iteration order of the theme categories (src/app.py line 231,
src/utils.py line 619). -/
def allThemes : List ThemeCat := [.climate, .water, .forests, .other]

/-- Count of one category, `(data[col] == "Y").sum()` (src/app.py line 235,
src/utils.py line 624). -/
def themeCount (data : List Row) (c : ThemeCat) : Nat :=
  (data.filter (fun r => themeFlagVal r c == "Y")).length

/-- Denominator of the thematic distribution: the sum of all theme counts
(src/app.py line 232, src/utils.py line 626). -/
def total_theme_ys (data : List Row) : Nat :=
  (allThemes.map (themeCount data)).sum

/-- Percentage share of one category (src/app.py line 236, src/utils.py
line 636): `round((count / total_theme_ys) * 100)` when the denominator is
positive, else 0. -/
def themePct (data : List Row) (c : ThemeCat) : ℤ :=
  if 0 < total_theme_ys data then
    pyRound ((themeCount data c : ℚ) / (total_theme_ys data : ℚ) * 100)
  else 0

/-- Number of "Y" theme flags carried by one record. -/
def rowThemeYs (r : Row) : Nat :=
  (allThemes.filter (fun c => themeFlagVal r c == "Y")).length

/-! ## Record Store mutations (src/utils.py create_engagement lines 150-209,
log_interaction lines 211-251) -/

/-- One logged interaction entry, with the fields assembled on src/utils.py
lines 232-240.  `interaction_date` holds the formatted date at day granularity
and `logged_date` the formatted logging timestamp. -/
structure Interaction where
  interaction_id : String
  interaction_type : String
  interaction_summary : String
  interaction_date : Day
  outcome_status : String
  logged_by : String
  logged_date : Day
deriving DecidableEq, Repr

/-- The serialized `interactions` cell of a record: either a well-formed list
or a malformed/unreadable value. -/
inductive InteractionsCell where
  | wellFormed (entries : List Interaction)
  | malformed
deriving DecidableEq, Repr

/-- Reading the cell with `json.loads` under `try/except` (src/utils.py
lines 226-229): malformed input degrades to the empty list. -/
def parseInteractions : InteractionsCell → List Interaction
  | .wellFormed l => l
  | .malformed => []

/-- One persisted engagement record, with the column set established by
create_engagement (src/utils.py lines 159-189).  Dates may be NaT (`none`).
The Python column name `repeat` is a Lean keyword, hence `repeat_flag`. -/
structure Engagement where
  engagement_id : Int
  company_name : String
  isin : String
  aqr_id : String
  gics_sector : String
  country : String
  region : String
  program : String
  objective : String
  start_date : Option Day
  target_date : Option Day
  e : Bool
  s : Bool
  g : Bool
  climate_change : String
  water : String
  forests : String
  other : String
  created_date : Day
  created_by : String
  last_interaction_date : Option Day
  next_action_date : Option Day
  initial_status : String
  outcome : String
  sentiment : String
  escalation_level : String
  outcome_status : String
  interactions : InteractionsCell
  repeat_flag : Bool
deriving DecidableEq, Repr

/-- Creation payload: the dictionary read by create_engagement.  `none` models
an absent key, so the `data.get(key, default)` defaults of lines 159-189 are
applied inside `create_engagement`. -/
structure CreatePayload where
  company_name : Option String
  isin : Option String
  aqr_id : Option String
  gics_sector : Option String
  country : Option String
  region : Option String
  program : Option String
  objective : Option String
  start_date : Option Day
  target_date : Option Day
  e : Option Bool
  s : Option Bool
  g : Option Bool
  theme_climate_change : Option Bool
  theme_water : Option Bool
  theme_forests : Option Bool
  theme_other : Option Bool
  created_by : Option String
  initial_status : Option String
  repeat_flag : Option Bool
deriving DecidableEq, Repr

/-- Maximum of a list of integers, 0 on the empty list (only used on non-empty
lists, mirroring `df["engagement_id"].max()`). -/
def listMax : List Int → Int
  | [] => 0
  | x :: xs => xs.foldl max x

/-- create_engagement (src/utils.py lines 150-209).  The duplicate check of
line 152 lowercases both sides; on rejection the record set is returned
untouched and nothing is saved.  Otherwise the new record of lines 159-189 is
appended and saved (persistence modelled as succeeding).  Literal message
texts are abridged (no quoting) but keep the same success/failure content. -/
def create_engagement (df : List Engagement) (data : CreatePayload) (now : Day) :
    (Bool × String) × List Engagement :=
  let name := data.company_name.getD ""
  if !df.isEmpty && (df.map (fun e => e.company_name.toLower)).contains name.toLower then
    ((false, name ++ " already exists."), df)
  else
    let next_id : Int := if !df.isEmpty then listMax (df.map (fun e => e.engagement_id)) + 1 else 1
    let newRec : Engagement :=
      { engagement_id := next_id
        company_name := name
        isin := data.isin.getD ""
        aqr_id := data.aqr_id.getD ""
        gics_sector := data.gics_sector.getD ""
        country := data.country.getD ""
        region := data.region.getD ""
        program := data.program.getD ""
        objective := data.objective.getD ""
        start_date := data.start_date
        target_date := data.target_date
        e := data.e.getD false
        s := data.s.getD false
        g := data.g.getD false
        climate_change := if data.theme_climate_change.getD false then "Y" else "N"
        water := if data.theme_water.getD false then "Y" else "N"
        forests := if data.theme_forests.getD false then "Y" else "N"
        other := if data.theme_other.getD false then "Y" else "N"
        created_date := now
        created_by := data.created_by.getD "System"
        last_interaction_date := none
        next_action_date := data.start_date
        initial_status := data.initial_status.getD "Not Started"
        outcome := data.initial_status.getD "Not Started"
        sentiment := "No Response"
        escalation_level := "None Required"
        outcome_status := "N/A"
        interactions := .wellFormed []
        repeat_flag := data.repeat_flag.getD false }
    ((true, "Engagement for " ++ name ++ " created successfully."), df ++ [newRec])

/-- Interaction payload: the dictionary read by log_interaction.  `none`
models an absent/None key (and for strings also the empty string, both being
skipped by the `value is not None and value != ""` guard of line 220). -/
structure LogPayload where
  engagement_id : Int
  interaction_type : Option String
  interaction_summary : Option String
  date : Option Day
  last_interaction_date : Option Day
  next_action_date : Option Day
  outcome_status : Option String
  escalation_level : Option String
deriving DecidableEq, Repr

/-- Column-update loop of log_interaction (src/utils.py lines 219-224): every
payload key that is a column of the record set and has a non-None, non-empty
value overwrites that column on the matched row.  Of the payload keys, the
columns of `Engagement` are `engagement_id` (rewritten with the very value it
was matched on — a no-op, omitted), the two date columns (passed through
`pd.to_datetime`, the identity at day granularity), `outcome_status` and
`escalation_level`. -/
def applyPayloadCols (e : Engagement) (p : LogPayload) : Engagement :=
  { e with
    last_interaction_date :=
      match p.last_interaction_date with | some d => some d | none => e.last_interaction_date
    next_action_date :=
      match p.next_action_date with | some d => some d | none => e.next_action_date
    outcome_status :=
      match p.outcome_status with | some s => s | none => e.outcome_status
    escalation_level :=
      match p.escalation_level with | some s => s | none => e.escalation_level }

/-- Line 231 of src/utils.py: `data.get("date") or data.get("last_interaction_date")`. -/
def intDate (p : LogPayload) : Option Day :=
  match p.date with
  | some d => some d
  | none => p.last_interaction_date

/-- Python str.strip(): drop leading and trailing whitespace (structural
implementation over the character list, equivalent to `String.trim`). -/
def pyStrip (s : String) : String :=
  String.mk (((s.data.dropWhile Char.isWhitespace).reverse.dropWhile Char.isWhitespace).reverse)

/-- The entry appended on src/utils.py lines 232-240: a supplied fresh
identifier, the payload type/outcome with "N/A" defaults, the summary with
surrounding whitespace stripped (default "No summary provided"), the
interaction date formatted at day precision, and the logging actor/timestamp. -/
def newEntry (p : LogPayload) (fid : String) (d : Day) (now : Day) : Interaction :=
  { interaction_id := fid
    interaction_type := p.interaction_type.getD "N/A"
    interaction_summary := pyStrip (p.interaction_summary.getD "No summary provided")
    interaction_date := d
    outcome_status := p.outcome_status.getD "N/A"
    logged_by := "System"
    logged_date := now }

/-- Update of the single matched row (src/utils.py lines 219-242): apply the
column updates, parse the existing interactions cell (malformed degrades to
empty), then append the new entry.  When neither `date` nor
`last_interaction_date` is supplied, `pd.to_datetime(None)` is `NaT` and
`NaT.strftime` on line 236 raises. -/
def updateEng (e : Engagement) (p : LogPayload) (fid : String) (now : Day) :
    Except PdError Engagement :=
  let e1 := applyPayloadCols e p
  let old := parseInteractions e1.interactions
  match intDate p with
  | none => .error .natStrftime
  | some d => .ok { e1 with interactions := .wellFormed (old ++ [newEntry p fid d now]) }

/-- Locate the first record whose `engagement_id` matches (line 214 keeps the
first matching index) and update it in place; `none` when no record matches. -/
def logLoop (store : List Engagement) (p : LogPayload) (fid : String) (now : Day) :
    Option (Except PdError (List Engagement)) :=
  match store with
  | [] => none
  | e :: rest =>
    if e.engagement_id = p.engagement_id then
      some ((updateEng e p fid now).map (fun e2 => e2 :: rest))
    else
      (logLoop rest p fid now).map (fun res => res.map (fun l => e :: l))

/-- log_interaction (src/utils.py lines 211-251): structured not-found outcome,
raised errors propagated, otherwise the updated store is saved (persistence
modelled as succeeding) and a success outcome returned. -/
def log_interaction (store : List Engagement) (p : LogPayload) (fid : String) (now : Day) :
    Except PdError (Bool × String × List Engagement) :=
  match logLoop store p fid now with
  | none => .ok (false, "Engagement not found.", store)
  | some (.error err) => .error err
  | some (.ok st) => .ok (true, "Interaction logged successfully.", st)

/-- The successfully updated matched record: column updates applied and the new
entry appended at the end of the parsed sequence. -/
def updatedEng (e : Engagement) (p : LogPayload) (fid : String) (d now : Day) : Engagement :=
  { applyPayloadCols e p with
    interactions := .wellFormed (parseInteractions e.interactions ++ [newEntry p fid d now]) }

/-! ## Vacuity predicates and concrete test fixtures -/

/-- Every dimension of the filter tuple is empty/unset. -/
def Filters.IsVacuous (f : Filters) : Prop :=
  f.progs = [] ∧ f.sector = [] ∧ f.region = [] ∧ f.country = [] ∧ f.outcome = [] ∧
  f.sentiment = [] ∧ f.status = [] ∧ f.esg = [] ∧ f.urgent = false ∧ f.upcoming = false ∧
  f.theme = "" ∧ f.objectives = [] ∧ f.repeat_values = []

/-- Every dimension of the app-level filter tuple is empty/unset. -/
def AppFilters.IsVacuous (f : AppFilters) : Prop :=
  f.progs = [] ∧ f.sector = [] ∧ f.region = [] ∧ f.country = [] ∧ f.mile = [] ∧
  f.status = [] ∧ f.esg = [] ∧ f.show_urgent = false ∧ f.show_upcoming = false ∧
  f.companies = [] ∧ f.themes = [] ∧ f.objectives = []

/-- A concrete derived-view row: two theme flags set, environmental focus only. -/
def sampleRow : Row :=
  { company_name := "Acme Corp", program := some "P1", gics_sector := some "IT"
    region := some "Europe", country := some "UK", outcome := some "In Progress"
    sentiment := some "No Response", initial_status := some "In Progress"
    objective := some "Disclosure", milestone := some "Success", milestone_status := none
    theme := "Climate, Water", climate_change := "Y", water := "Y", forests := "N"
    other := "N", e := true, s := false, g := false, repeat_flag := false
    urgent := false, next_action_date := some 2, days_to_next_action := some 2 }

/-- A concrete row with environmental focus only (e set, s and g unset). -/
def rowEnvOnly : Row := { sampleRow with e := true, s := false, g := false }

/-- A concrete row with no ESG flag set at all. -/
def rowNoEsg : Row := { sampleRow with e := false, s := false, g := false }

/-- A concrete row with one theme flag ("forests") and a cancelled milestone. -/
def rowForests : Row :=
  { sampleRow with
    climate_change := "N"
    water := "N"
    forests := "Y"
    milestone := some "Cancelled"
    theme := "Forests" }

/-- A non-empty raw record set missing the `next_action_date` column. -/
def c2DF : RawDF :=
  { hasNextActionDate := false, hasOutcome := true, hasTargetDate := true
    rows := [RawRow.mk none (some "In Progress") (some 10)] }

/-- A raw record set with all derivation-input columns present and one record
whose `next_action_date` cell is NaT. -/
def c3DF : RawDF :=
  { hasNextActionDate := true, hasOutcome := true, hasTargetDate := true
    rows := [RawRow.mk none none (some 10)] }

/-- The derived rows produced for `c3DF`. -/
def c3Out : List DerivedRow :=
  [{ days_to_next_action := none, is_complete := false, on_time := false
     late := false, overdue := false, urgent := false }]

/-- A concrete stored engagement record with an empty interaction sequence. -/
def acmeEng : Engagement :=
  { engagement_id := 1, company_name := "Acme", isin := "", aqr_id := ""
    gics_sector := "IT", country := "UK", region := "Europe", program := "P1"
    objective := "", start_date := some 0, target_date := some 90, e := true
    s := false, g := false, climate_change := "Y", water := "N", forests := "N"
    other := "N", created_date := 0, created_by := "System"
    last_interaction_date := none, next_action_date := some 0
    initial_status := "Not Started", outcome := "Not Started"
    sentiment := "No Response", escalation_level := "None Required"
    outcome_status := "N/A", interactions := .wellFormed [], repeat_flag := false }

/-- A concrete interaction payload whose summary carries surrounding whitespace. -/
def c6Pay : LogPayload :=
  { engagement_id := 1, interaction_type := some "Call", interaction_summary := some " x "
    date := none, last_interaction_date := some 10, next_action_date := some 24
    outcome_status := some "Done", escalation_level := none }

/-- The entry that logging `c6Pay` (fresh id "fid-1", at instant 20) appends. -/
def c6Entry : Interaction :=
  { interaction_id := "fid-1", interaction_type := "Call", interaction_summary := "x"
    interaction_date := 10, outcome_status := "Done", logged_by := "System"
    logged_date := 20 }

/-- The store record after logging `c6Pay` against `acmeEng`. -/
def c6After : Engagement :=
  { acmeEng with
    last_interaction_date := some 10
    next_action_date := some 24
    outcome_status := "Done"
    interactions := .wellFormed [c6Entry] }

/-- A concrete interaction payload supplying neither `date` nor
`last_interaction_date`. -/
def c10Pay : LogPayload :=
  { engagement_id := 1, interaction_type := some "Email", interaction_summary := some "s"
    date := none, last_interaction_date := none, next_action_date := none
    outcome_status := some "Done", escalation_level := none }

/-- A concrete creation payload whose company name duplicates the one of
`acmeEng`. -/
def c7Pay : CreatePayload :=
  { company_name := some "Acme", isin := none, aqr_id := none, gics_sector := some "IT"
    country := some "UK", region := some "Europe", program := some "P1", objective := none
    start_date := some 10, target_date := some 100, e := some true, s := none, g := none
    theme_climate_change := some true, theme_water := none, theme_forests := none
    theme_other := none, created_by := none, initial_status := none, repeat_flag := none }

/-- A concrete record set for the thematic-distribution claim: the first record
carries two theme flags, the second one. -/
def c9Data : List Row := [sampleRow, rowForests]

/-! ## Theorems -/

lemma filterConditions_of_vacuous (f : Filters) (now : Day) (hf : f.IsVacuous) :
    filterConditions f now = [] := by
  obtain ⟨h1, h2, h3, h4, h5, h6, h7, h8, h9, h10, h11, h12, h13⟩ := hf
  simp [filterConditions, esgCondition, h1, h2, h3, h4, h5, h6, h7, h8, h9, h10, h11, h12, h13]

lemma apply_filters_of_vacuous (df : List Row) (f : Filters) (now : Day) (hf : f.IsVacuous) :
    apply_filters df f now = df := by
  unfold apply_filters
  rw [filterConditions_of_vacuous f now hf]
  simp

lemma app_apply_filters_of_vacuous (df : List Row) (f : AppFilters) (today : Day)
    (hf : f.IsVacuous) : app_apply_filters df f today = df := by
  obtain ⟨h1, h2, h3, h4, h5, h6, h7, h8, h9, h10, h11, h12⟩ := hf
  simp [app_apply_filters, h1, h2, h3, h4, h5, h6, h7, h8, h9, h10, h11, h12]

/-- C1: filtering with a filter specification in which every dimension is
empty/unset returns the record set unchanged, in both the utils-level and the
app-level implementations of apply_filters. -/
theorem claim_C1_filter_vacuity (df : List Row) (f : Filters) (g : AppFilters)
    (now today : Day) (hf : f.IsVacuous) (hg : g.IsVacuous) :
    apply_filters df f now = df ∧ app_apply_filters df g today = df :=
  ⟨apply_filters_of_vacuous df f now hf, app_apply_filters_of_vacuous df g today hg⟩

/-- Witness for C1 at a concrete record set and the all-unset filter tuples. -/
theorem claim_C1_filter_vacuity_witness :
    apply_filters [sampleRow] emptyFilters 0 = [sampleRow] ∧
    app_apply_filters [sampleRow] emptyAppFilters 0 = [sampleRow] :=
  claim_C1_filter_vacuity [sampleRow] emptyFilters emptyAppFilters 0 0
    ⟨rfl, rfl, rfl, rfl, rfl, rfl, rfl, rfl, rfl, rfl, rfl, rfl, rfl⟩
    ⟨rfl, rfl, rfl, rfl, rfl, rfl, rfl, rfl, rfl, rfl, rfl, rfl⟩

/-- C2: the Derivation Stage is claimed never to raise on a missing optional
input column.  Evaluating the embedded derivation block on a concrete
non-empty record set lacking the `next_action_date` column shows the code
raising (AttributeError from `(pd.NaT - now).dt` on src/utils.py line 79)
instead of completing with default/null derived values. -/
theorem claim_C2_missing_column_raises :
    c2DF.rows ≠ [] ∧ deriveFields c2DF 0 = .error .natHasNoDtAttr :=
  ⟨List.cons_ne_nil _ _, rfl⟩

/-- C3: a record whose `next_action_date` cell is absent (NaT) derives
`urgent = false` and `days_to_next_action = null`. -/
theorem claim_C3_absent_date_not_urgent (df : RawDF) (now : Day) (out : List DerivedRow)
    (i : Nat) (r : RawRow) (hok : deriveFields df now = .ok out)
    (hr : df.rows[i]? = some r) (hnone : r.next_action_date = none) :
    ∃ dr : DerivedRow, out[i]? = some dr ∧ dr.urgent = false ∧
      dr.days_to_next_action = none := by
  unfold deriveFields at hok
  split at hok
  · rename_i hnil
    rw [hnil] at hr
    simp at hr
  · split at hok
    · exact absurd hok (by simp)
    · split at hok
      · exact absurd hok (by simp)
      · have hout : df.rows.map (fun r => deriveRow df.hasTargetDate r now) = out :=
          Except.ok.inj hok
        refine ⟨deriveRow df.hasTargetDate r now, ?_, ?_, ?_⟩
        · rw [← hout]
          simp [List.getElem?_map, hr]
        · simp [deriveRow, hnone]
        · simp [deriveRow, hnone]

lemma esgFlag_e (r : Row) : esgFlag r "e" = some r.e := rfl

lemma esgFlag_s (r : Row) : esgFlag r "s" = some r.s := rfl

lemma esgFlag_g (r : Row) : esgFlag r "g" = some r.g := rfl

lemma esgAny_iff (r : Row) (sel : List String)
    (hsub : ∀ x ∈ sel, x = "e" ∨ x = "s" ∨ x = "g") :
    (sel.any (fun fl => (esgFlag r fl).getD false)) = true ↔
      ∃ x ∈ sel, esgFlag r x = some true := by
  rw [List.any_eq_true]
  constructor
  · rintro ⟨x, hx, hval⟩
    refine ⟨x, hx, ?_⟩
    rcases hsub x hx with h | h | h <;> subst h <;>
      simp only [esgFlag_e, esgFlag_s, esgFlag_g, Option.getD_some] at hval <;>
      simp [esgFlag_e, esgFlag_s, esgFlag_g, hval]
  · rintro ⟨x, hx, hval⟩
    exact ⟨x, hx, by rw [hval]; rfl⟩

lemma esgCondition_of_valid (sel : List String) (hne : sel ≠ [])
    (hsub : ∀ x ∈ sel, x = "e" ∨ x = "s" ∨ x = "g") :
    esgCondition sel = [fun r => sel.any (fun fl => (esgFlag r fl).getD false)] := by
  have hfil : sel.filter (fun fl => fl == "e" || fl == "s" || fl == "g") = sel :=
    List.filter_eq_self.mpr (by intro x hx; rcases hsub x hx with h | h | h <;> simp [h])
  have hie : sel.isEmpty = false := by
    cases sel
    · exact absurd rfl hne
    · rfl
  simp [esgCondition, hfil, hie, hne]

lemma apply_filters_esgOnly (df : List Row) (sel : List String) (now : Day)
    (hne : sel ≠ []) (hsub : ∀ x ∈ sel, x = "e" ∨ x = "s" ∨ x = "g") :
    apply_filters df (esgOnly sel) now =
      df.filter (fun r => sel.any (fun fl => (esgFlag r fl).getD false)) := by
  have hconds : filterConditions (esgOnly sel) now =
      [fun r => sel.any (fun fl => (esgFlag r fl).getD false)] := by
    simp [filterConditions, esgOnly, emptyFilters, esgCondition_of_valid sel hne hsub]
  unfold apply_filters
  rw [hconds]
  rcases df with _ | ⟨r, t⟩
  · simp
  · simp

lemma app_apply_filters_esgOnly (df : List Row) (sel : List String) (today : Day)
    (hne : sel ≠ []) (hsub : ∀ x ∈ sel, x = "e" ∨ x = "s" ∨ x = "g") :
    app_apply_filters df (appEsgOnly sel) today =
      df.filter (fun r => sel.any (fun fl => (esgFlag r fl).getD false)) := by
  have hall : appEsgAllCols sel = true := by
    rw [appEsgAllCols, List.all_eq_true]
    intro x hx
    rcases hsub x hx with h | h | h <;> simp [h]
  have hie : sel.isEmpty = false := by
    cases sel
    · exact absurd rfl hne
    · rfl
  rcases df with _ | ⟨r, t⟩
  · simp [app_apply_filters]
  · simp [app_apply_filters, appEsgOnly, emptyAppFilters, hall, hie]

/-- C4: with a non-empty ESG selection among the flag columns e, s, g (and all
other dimensions empty), a record passes the filter if and only if at least one
of the selected flag columns is true on it (OR across selected flags), in both
implementations; in particular a record with only the environmental flag does
not pass the selection of social and governance. -/
theorem claim_C4_esg_or (df : List Row) (r : Row) (sel : List String) (now : Day)
    (hne : sel ≠ []) (hsub : ∀ x ∈ sel, x = "e" ∨ x = "s" ∨ x = "g") :
    (r ∈ apply_filters df (esgOnly sel) now ↔
      r ∈ df ∧ ∃ x ∈ sel, esgFlag r x = some true) ∧
    (r ∈ app_apply_filters df (appEsgOnly sel) now ↔
      r ∈ df ∧ ∃ x ∈ sel, esgFlag r x = some true) ∧
    apply_filters [rowEnvOnly] (esgOnly ["s", "g"]) now = [] ∧
    app_apply_filters [rowEnvOnly] (appEsgOnly ["s", "g"]) now = [] := by
  refine ⟨?_, ?_, ?_, ?_⟩
  · rw [apply_filters_esgOnly df sel now hne hsub, List.mem_filter,
      esgAny_iff r sel hsub]
  · rw [app_apply_filters_esgOnly df sel now hne hsub, List.mem_filter,
      esgAny_iff r sel hsub]
  · rw [apply_filters_esgOnly _ _ _ (by decide) (by decide)]
    decide
  · rw [app_apply_filters_esgOnly _ _ _ (by decide) (by decide)]
    decide

/-- Witness for C4 at a concrete record set and the singleton selection of the
environmental flag. -/
theorem claim_C4_esg_or_witness :
    (sampleRow ∈ apply_filters [sampleRow] (esgOnly ["e"]) 0 ↔
      sampleRow ∈ [sampleRow] ∧ ∃ x ∈ ["e"], esgFlag sampleRow x = some true) ∧
    (sampleRow ∈ app_apply_filters [sampleRow] (appEsgOnly ["e"]) 0 ↔
      sampleRow ∈ [sampleRow] ∧ ∃ x ∈ ["e"], esgFlag sampleRow x = some true) ∧
    apply_filters [rowEnvOnly] (esgOnly ["s", "g"]) 0 = [] ∧
    app_apply_filters [rowEnvOnly] (appEsgOnly ["s", "g"]) 0 = [] :=
  claim_C4_esg_or [sampleRow] sampleRow ["e"] 0 (by decide) (by decide)

/-- C5 counterexample: the claim "ESG selection of all three flags is
equivalent to an empty ESG selection, for every record set" fails on a record
set containing a record with no ESG flag set: the full selection filters it
out while the empty selection keeps it. -/
theorem claim_C5_counterexample :
    apply_filters [rowNoEsg] (esgOnly ["e", "s", "g"]) 0 ≠
      apply_filters [rowNoEsg] emptyFilters 0 := by
  decide

/-- C5 as amended: for record sets in which every record has at least one ESG
flag set (the creation invariant), filtering with the ESG dimension set to all
three flags (all other dimensions empty) equals filtering with the ESG
dimension empty. -/
theorem claim_C5_esg_all_equals_empty (df : List Row) (now : Day)
    (hesg : ∀ r ∈ df, r.e = true ∨ r.s = true ∨ r.g = true) :
    apply_filters df (esgOnly ["e", "s", "g"]) now =
      apply_filters df emptyFilters now := by
  rw [apply_filters_of_vacuous df emptyFilters now
    ⟨rfl, rfl, rfl, rfl, rfl, rfl, rfl, rfl, rfl, rfl, rfl, rfl, rfl⟩]
  rw [apply_filters_esgOnly df _ now (by decide) (by decide)]
  apply List.filter_eq_self.mpr
  intro r hr
  rcases hesg r hr with h | h | h <;>
    simp [esgFlag_e, esgFlag_s, esgFlag_g, h]

/-- Witness for the amended C5 at a concrete one-record set satisfying the
at-least-one-flag invariant. -/
theorem claim_C5_esg_all_equals_empty_witness :
    apply_filters [rowEnvOnly] (esgOnly ["e", "s", "g"]) 0 =
      apply_filters [rowEnvOnly] emptyFilters 0 :=
  claim_C5_esg_all_equals_empty [rowEnvOnly] 0 (by decide)

lemma applyPayloadCols_interactions (e : Engagement) (p : LogPayload) :
    (applyPayloadCols e p).interactions = e.interactions := rfl

lemma updateEng_ok (e : Engagement) (p : LogPayload) (fid : String) (now d : Day)
    (hdate : intDate p = some d) :
    updateEng e p fid now = .ok (updatedEng e p fid d now) := by
  simp [updateEng, hdate, updatedEng, applyPayloadCols_interactions]

lemma logLoop_found (p : LogPayload) (fid : String) (now d : Day)
    (e : Engagement) (post : List Engagement)
    (hid : e.engagement_id = p.engagement_id) (hdate : intDate p = some d) :
    ∀ pre : List Engagement, (∀ e0 ∈ pre, e0.engagement_id ≠ p.engagement_id) →
      logLoop (pre ++ e :: post) p fid now =
        some (.ok (pre ++ updatedEng e p fid d now :: post)) := by
  intro pre
  induction pre with
  | nil =>
    intro _
    simp [logLoop, hid, updateEng_ok e p fid now d hdate, Except.map]
  | cons e0 rest ih =>
    intro hpre
    have h0 : ¬ e0.engagement_id = p.engagement_id := hpre e0 (List.mem_cons_self e0 rest)
    have ih2 := ih (fun x hx => hpre x (List.mem_cons_of_mem e0 hx))
    simp [logLoop, h0, ih2, Except.map]

/-- C6 counterexample: the claim says the appended entry carries the payload
summary; logging a payload whose summary is " x " succeeds, but the stored
entry holds the stripped "x", not the payload value. -/
theorem claim_C6_counterexample :
    log_interaction [acmeEng] c6Pay "fid-1" 20 =
      .ok (true, "Interaction logged successfully.", [c6After]) ∧
    c6Pay.interaction_summary = some " x " ∧
    parseInteractions c6After.interactions = [c6Entry] ∧
    c6Entry.interaction_summary ≠ " x " := by
  refine ⟨?_, rfl, rfl, by decide⟩
  rfl

/-- C6 as amended: a successful log_interaction against an engagement present
in the store appends exactly one entry at the end of that engagement's parsed
Interaction sequence; the entry carries the supplied fresh identifier and
logged-timestamp, the payload interaction type and outcome (defaulting to
"N/A"), the payload summary with surrounding whitespace stripped, and the
payload date at day precision; all other records are untouched. -/
theorem claim_C6_append_merge (pre post : List Engagement) (e : Engagement)
    (p : LogPayload) (fid : String) (now d : Day)
    (hpre : ∀ e0 ∈ pre, e0.engagement_id ≠ p.engagement_id)
    (hid : e.engagement_id = p.engagement_id)
    (hdate : intDate p = some d) :
    ∃ e2 : Engagement,
      log_interaction (pre ++ e :: post) p fid now =
        .ok (true, "Interaction logged successfully.", pre ++ e2 :: post) ∧
      parseInteractions e2.interactions =
        parseInteractions e.interactions ++ [newEntry p fid d now] := by
  refine ⟨updatedEng e p fid d now, ?_, ?_⟩
  · simp [log_interaction, logLoop_found p fid now d e post hid hdate pre hpre]
  · simp [updatedEng, parseInteractions]

/-- Witness for the amended C6 at a concrete one-record store. -/
theorem claim_C6_append_merge_witness :
    ∃ e2 : Engagement,
      log_interaction ([] ++ acmeEng :: []) c6Pay "fid-1" 20 =
        .ok (true, "Interaction logged successfully.", [] ++ e2 :: []) ∧
      parseInteractions e2.interactions =
        parseInteractions acmeEng.interactions ++ [newEntry c6Pay "fid-1" 10 20] :=
  claim_C6_append_merge [] [] acmeEng c6Pay "fid-1" 20 10 (by simp) rfl rfl

/-- C7: creating an engagement whose company name matches an existing record
case-insensitively is rejected with a failure outcome and a message, and the
record set is returned unchanged (nothing appended, nothing persisted). -/
theorem claim_C7_duplicate_rejection (df : List Engagement) (data : CreatePayload)
    (now : Day) (hne : df ≠ [])
    (hdup : ∃ e ∈ df, e.company_name.toLower = (data.company_name.getD "").toLower) :
    create_engagement df data now =
      ((false, (data.company_name.getD "") ++ " already exists."), df) := by
  have hie : df.isEmpty = false := by
    cases df
    · exact absurd rfl hne
    · rfl
  have hcont : (df.map (fun e => e.company_name.toLower)).contains
      ((data.company_name.getD "").toLower) = true := by
    obtain ⟨e, he, hl⟩ := hdup
    exact List.elem_eq_true_of_mem (List.mem_map.mpr ⟨e, he, hl⟩)
  simp [create_engagement, hie, hcont]
  exact hdup

/-- Witness for C7 at a concrete one-record set and a duplicate payload. -/
theorem claim_C7_duplicate_rejection_witness :
    create_engagement [acmeEng] c7Pay 5 = ((false, "Acme already exists."), [acmeEng]) :=
  claim_C7_duplicate_rejection [acmeEng] c7Pay 5 (by decide) ⟨acmeEng, by simp, rfl⟩

/-- C10: log_interaction with an engagement identifier present in the store but
neither a date nor a last-interaction date in the payload raises (the NaT date
cannot be formatted for the appended entry) instead of returning a structured
failure outcome. -/
theorem claim_C10_missing_date_raises (store : List Engagement) (p : LogPayload)
    (fid : String) (now : Day)
    (hfound : ∃ e ∈ store, e.engagement_id = p.engagement_id)
    (hd : p.date = none) (hl : p.last_interaction_date = none) :
    log_interaction store p fid now = .error .natStrftime := by
  have hdate : intDate p = none := by simp [intDate, hd, hl]
  have hloop : ∀ st : List Engagement, (∃ e ∈ st, e.engagement_id = p.engagement_id) →
      logLoop st p fid now = some (.error .natStrftime) := by
    intro st
    induction st with
    | nil =>
      intro h
      simp at h
    | cons e0 rest ih =>
      intro h
      by_cases he : e0.engagement_id = p.engagement_id
      · simp [logLoop, he, updateEng, hdate, Except.map]
      · obtain ⟨e, he2, hid⟩ := h
        rcases List.mem_cons.mp he2 with rfl | hmem
        · exact absurd hid he
        · simp [logLoop, he, ih ⟨e, hmem, hid⟩, Except.map]
  simp [log_interaction, hloop store hfound]

/-- Witness for C10 at a concrete one-record store and a dateless payload. -/
theorem claim_C10_missing_date_raises_witness :
    log_interaction [acmeEng] c10Pay "fid-2" 0 = .error .natStrftime :=
  claim_C10_missing_date_raises [acmeEng] c10Pay "fid-2" 0 ⟨acmeEng, by simp, rfl⟩ rfl rfl

lemma count_true_map (l : List Row) (q : Row → Bool) :
    (l.map q).count true = (l.filter q).length := by
  induction l with
  | nil => rfl
  | cons r t ih =>
    by_cases h : q r = true <;>
      simp [List.count_cons, List.filter_cons, h, ih]

/-- C8: the dashboard success rate equals the rounded percentage of records
whose milestone is in the success vocabulary, the fail rate the analogous
case-insensitive "cancelled" ratio, and both are 0 (not an error) on the empty
record set.  `claimSuccessRate`/`claimFailRate` restate the claim text. -/
theorem claim_C8_rates (data : List Row) :
    success_rate data = claimSuccessRate data ∧
    fail_rate data = claimFailRate data ∧
    success_rate [] = 0 ∧ fail_rate [] = 0 := by
  refine ⟨?_, ?_, rfl, rfl⟩
  · unfold success_rate claimSuccessRate success_count
    rcases data with _ | ⟨r, t⟩
    · rfl
    · rw [count_true_map]
      simp
  · unfold fail_rate claimFailRate failed_count
    rcases data with _ | ⟨r, t⟩
    · rfl
    · rw [count_true_map]
      simp

lemma pyRound_bounds (q : ℚ) :
    q - 1/2 ≤ (pyRound q : ℚ) ∧ (pyRound q : ℚ) ≤ q + 1/2 := by
  have h1 : ((⌊q⌋ : ℤ) : ℚ) ≤ q := Int.floor_le q
  have h2 : q < ((⌊q⌋ : ℤ) : ℚ) + 1 := Int.lt_floor_add_one q
  unfold pyRound
  split
  · rename_i hlt
    constructor <;> linarith
  · rename_i hge
    push_neg at hge
    split
    · rename_i hgt
      constructor <;> push_cast <;> linarith
    · rename_i hle
      push_neg at hle
      split <;> constructor <;> push_cast <;> linarith

lemma themeCount_cons (r : Row) (t : List Row) (c : ThemeCat) :
    themeCount (r :: t) c =
      (if themeFlagVal r c == "Y" then 1 else 0) + themeCount t c := by
  by_cases h : (themeFlagVal r c == "Y") = true <;>
    simp [themeCount, List.filter_cons, h, Nat.add_comm]

lemma total_theme_ys_expand (data : List Row) :
    total_theme_ys data =
      themeCount data .climate + themeCount data .water +
        themeCount data .forests + themeCount data .other := by
  simp [total_theme_ys, allThemes]
  omega

lemma rowThemeYs_expand (r : Row) :
    rowThemeYs r =
      (if themeFlagVal r .climate == "Y" then 1 else 0) +
      (if themeFlagVal r .water == "Y" then 1 else 0) +
      (if themeFlagVal r .forests == "Y" then 1 else 0) +
      (if themeFlagVal r .other == "Y" then 1 else 0) := by
  by_cases h1 : (themeFlagVal r .climate == "Y") = true <;>
    by_cases h2 : (themeFlagVal r .water == "Y") = true <;>
      by_cases h3 : (themeFlagVal r .forests == "Y") = true <;>
        by_cases h4 : (themeFlagVal r .other == "Y") = true <;>
          simp [rowThemeYs, allThemes, List.filter_cons, h1, h2, h3, h4]

lemma total_theme_ys_eq_sum_rows (data : List Row) :
    total_theme_ys data = (data.map rowThemeYs).sum := by
  induction data with
  | nil => rfl
  | cons r t ih =>
    rw [total_theme_ys_expand] at ih ⊢
    simp only [themeCount_cons, List.map_cons, List.sum_cons, rowThemeYs_expand]
    omega

/-- C9: the thematic-distribution denominator is the sum of all theme counts —
equivalently the total number of "Y" theme flags across records, so a record
with two themes contributes twice — not the number of records; each category's
percentage is the rounded share of that denominator, the exact shares sum to
exactly 100, and the rounded percentages sum to 100 up to the rounding error
bound 2. -/
theorem claim_C9_theme_distribution (data : List Row) (hpos : 0 < total_theme_ys data) :
    total_theme_ys data = (data.map rowThemeYs).sum ∧
    (allThemes.map
      (fun c => (themeCount data c : ℚ) / (total_theme_ys data : ℚ) * 100)).sum = 100 ∧
    (∀ c, themePct data c =
      pyRound ((themeCount data c : ℚ) / (total_theme_ys data : ℚ) * 100)) ∧
    |(allThemes.map (fun c => (themePct data c : ℚ))).sum - 100| ≤ 2 := by
  have hT : ((total_theme_ys data : ℚ)) ≠ 0 := by
    have := hpos.ne'
    exact_mod_cast this
  have hsum : (allThemes.map
      (fun c => (themeCount data c : ℚ) / (total_theme_ys data : ℚ) * 100)).sum = 100 := by
    have htot := total_theme_ys_expand data
    simp only [allThemes, List.map_cons, List.map_nil, List.sum_cons, List.sum_nil, add_zero]
    field_simp
    rw [htot]
    push_cast
    ring
  have hpct : ∀ c, themePct data c =
      pyRound ((themeCount data c : ℚ) / (total_theme_ys data : ℚ) * 100) := by
    intro c
    simp [themePct, hpos]
  refine ⟨total_theme_ys_eq_sum_rows data, hsum, hpct, ?_⟩
  have hb1 := pyRound_bounds ((themeCount data .climate : ℚ) / (total_theme_ys data : ℚ) * 100)
  have hb2 := pyRound_bounds ((themeCount data .water : ℚ) / (total_theme_ys data : ℚ) * 100)
  have hb3 := pyRound_bounds ((themeCount data .forests : ℚ) / (total_theme_ys data : ℚ) * 100)
  have hb4 := pyRound_bounds ((themeCount data .other : ℚ) / (total_theme_ys data : ℚ) * 100)
  simp only [allThemes, List.map_cons, List.map_nil, List.sum_cons, List.sum_nil,
    add_zero] at hsum ⊢
  rw [hpct .climate, hpct .water, hpct .forests, hpct .other]
  rw [abs_le]
  constructor <;> linarith [hb1.1, hb1.2, hb2.1, hb2.2, hb3.1, hb3.2, hb4.1, hb4.2]

/-- Witness for C9 at a concrete record set: one record with two theme flags
and one with a single theme flag. -/
theorem claim_C9_theme_distribution_witness :
    total_theme_ys c9Data = (c9Data.map rowThemeYs).sum ∧
    (allThemes.map
      (fun c => (themeCount c9Data c : ℚ) / (total_theme_ys c9Data : ℚ) * 100)).sum = 100 ∧
    (∀ c, themePct c9Data c =
      pyRound ((themeCount c9Data c : ℚ) / (total_theme_ys c9Data : ℚ) * 100)) ∧
    |(allThemes.map (fun c => (themePct c9Data c : ℚ))).sum - 100| ≤ 2 :=
  claim_C9_theme_distribution c9Data (by decide)

/-- Witness for C3 at a concrete record set whose single record has a NaT
`next_action_date`. -/
theorem claim_C3_absent_date_not_urgent_witness :
    ∃ dr : DerivedRow, c3Out[0]? = some dr ∧ dr.urgent = false ∧
      dr.days_to_next_action = none :=
  claim_C3_absent_date_not_urgent c3DF 7 c3Out 0
    (RawRow.mk none none (some 10)) (by simp [deriveFields, c3DF, c3Out, deriveRow]) rfl rfl

end NG
